import Mathlib

/-
Shallow embedding of the WebKit session/target lifecycle layer
(src/webkit/Browser.ts): the Browser target/context registry, the three
lifecycle notification handlers (targetCreated, targetDestroyed,
didCommitProvisionalTarget), the target-changed routing, waitForTarget,
page/context creation and BrowserContext close.

Modelling conventions:
- JavaScript `Map` objects become association lists (`List (String × α)`)
  with get/set/delete preserving insertion order, matching Map iteration
  semantics for the unique-key maps used by the source.
- A `Page` promise identity is a natural number: two callers hold the same
  Page object exactly when they hold the same number.
- The transport (`Connection.send`) is abstracted by passing the command
  result as an argument (`Except JsError σ`): an awaited command either
  resolves or rejects before any code after the `await` runs.
- Observable side effects of a handler (registry removal, closed-callback
  invocation, event emission) are recorded in an `Action` trace in the
  order the statements execute in the source.
-/

set_option autoImplicit false

namespace Webkit

/-- Failure modes of the embedded operations. `typeError` models the
JavaScript `TypeError` raised when a property of `undefined` is accessed
(the source's internal-consistency failure mode); `assertionError` models
`helper.assert` failing; `protocolError` models a rejected protocol
command; `timeoutError` carries the operation name and the bound. -/
inductive JsError where
  | typeError
  | assertionError (msg : String)
  | protocolError (msg : String)
  | timeoutError (op : String) (ms : Nat)
deriving DecidableEq

/-- Payload of a Target.targetCreated notification, fields used by the
source: targetId, type, optional browserContextId. -/
structure TargetInfo where
  targetId : String
  type : String
  browserContextId : Option String
deriving DecidableEq

/-- A BrowserContext is its optional id plus a back-reference to the
Browser (left implicit: contexts are compared by id, which is unique).
`id = none` is the default context created without a contextId. -/
structure BrowserContext where
  id : Option String
deriving DecidableEq

/-- A Target: its creation payload, the owning BrowserContext, and the
lazily materialized Page promise (`none` until first requested). -/
structure Target where
  info : TargetInfo
  context : BrowserContext
  pagePromise : Option Nat
deriving DecidableEq

/-- The Browser registry state: the default context, the contexts map
(id to BrowserContext, excluding the default) and the targets map. -/
structure Browser where
  defaultContext : BrowserContext
  contexts : List (String × BrowserContext)
  targets : List (String × Target)
deriving DecidableEq

/-- JavaScript truthiness of an optional string: `undefined`/`null` and
the empty string are falsy. -/
def jsTruthy : Option String → Bool
  | none => false
  | some s => s ≠ ""

/-- Map.get: first entry with the key. -/
def mapGet {α : Type} (m : List (String × α)) (k : String) : Option α :=
  match m with
  | [] => none
  | (k', v) :: rest => if k' = k then some v else mapGet rest k

/-- Map.set: replace in place when the key exists, else append. -/
def mapSet {α : Type} (m : List (String × α)) (k : String) (v : α) :
    List (String × α) :=
  match m with
  | [] => [(k, v)]
  | (k', v') :: rest =>
      if k' = k then (k, v) :: rest else (k', v') :: mapSet rest k v

/-- Map.delete: drop the entry with the key. -/
def mapDelete {α : Type} (m : List (String × α)) (k : String) :
    List (String × α) :=
  match m with
  | [] => []
  | (k', v') :: rest =>
      if k' = k then mapDelete rest k else (k', v') :: mapDelete rest k

/-- The three lifecycle event names routed through the Browser emitter. -/
inductive EventKind where
  | targetCreated
  | targetDestroyed
  | targetChanged
deriving DecidableEq

/-- Observable side effects of a lifecycle handler, recorded in source
statement order. -/
inductive Action where
  | removeTarget (id : String)
  | closedCallback (id : String)
  | emitBrowser (k : EventKind) (t : Target)
  | emitContext (ctx : BrowserContext) (k : EventKind) (t : Target)
deriving DecidableEq

/-- Commands issued over the connection by an operation. -/
inductive Command where
  | createContext
  | deleteContext (browserContextId : Option String)
  | createPage (browserContextId : Option String)
deriving DecidableEq

/-- Browser.targets(): snapshot of the registry values in iteration
order. -/
def Browser.targetList (b : Browser) : List Target :=
  b.targets.map Prod.snd

/-- Modelled from the spec: Target.page (src/webkit/Target.ts is not among
the sources). The Page is materialized lazily and cached in pagePromise:
the first request stores a fresh promise, and every request afterwards,
concurrent or sequential, returns the same one, so all callers observe a
single Page identity per Target. -/
def Target.page (t : Target) (fresh : Nat) : Target × Nat :=
  match t.pagePromise with
  | some p => (t, p)
  | none => ({ t with pagePromise := some fresh }, fresh)

/-- Browser.createIncognitoBrowserContext: awaits Browser.createContext
(its result abstracted as `sendResult`); on rejection the error propagates
before any mutation runs; on success a BrowserContext keyed by the
returned id is registered and returned. -/
def createIncognitoBrowserContext (b : Browser)
    (sendResult : Except JsError String) :
    Browser × Except JsError BrowserContext :=
  match sendResult with
  | .error e => (b, .error e)
  | .ok browserContextId =>
      let context : BrowserContext := ⟨some browserContextId⟩
      ({ b with contexts := mapSet b.contexts browserContextId context },
       .ok context)

/-- Browser._disposeContext: awaits Browser.deleteContext, then removes
the context from the registry; on rejection the error propagates before
the removal runs. The command trace records what was sent. -/
def disposeContext (b : Browser) (browserContextId : Option String)
    (sendResult : Except JsError Unit) :
    Browser × List Command × Except JsError Unit :=
  match sendResult with
  | .error e => (b, [Command.deleteContext browserContextId], .error e)
  | .ok _ =>
      let contexts' :=
        match browserContextId with
        | some cid => mapDelete b.contexts cid
        | none => b.contexts
      ({ b with contexts := contexts' },
       [Command.deleteContext browserContextId], .ok ())

/-- Browser._createPageInContext: awaits Browser.createPage (result
abstracted as `sendResult`), looks the returned targetId up in the
registry, and requests the target's Page. When the registry has no such
target, `target.page()` dereferences `undefined` and raises a TypeError.
`fresh` is the promise identity allocated when the Page was never
requested before. -/
def createPageInContext (b : Browser) (sendResult : Except JsError String)
    (fresh : Nat) : Browser × Except JsError Nat :=
  match sendResult with
  | .error e => (b, .error e)
  | .ok targetId =>
      match mapGet b.targets targetId with
      | none => (b, .error JsError.typeError)
      | some t =>
          let r := Target.page t fresh
          ({ b with targets := mapSet b.targets targetId r.1 }, .ok r.2)

/-- Browser.newPage: creates a page in the default context; the context id
is carried inside the abstracted command, so the behaviour coincides with
createPageInContext. -/
def newPage (b : Browser) (sendResult : Except JsError String)
    (fresh : Nat) : Browser × Except JsError Nat :=
  createPageInContext b sendResult fresh

/-- Browser._onTargetCreated: resolve the owning context from the
notification's browserContextId when it is truthy and known, else the
default context; construct the Target, insert it, then emit the created
event on the Browser and on the owning context. -/
def onTargetCreated (b : Browser) (targetInfo : TargetInfo) :
    Browser × List Action :=
  let context : BrowserContext :=
    match targetInfo.browserContextId with
    | some cid =>
        if cid ≠ "" then
          match mapGet b.contexts cid with
          | some c => c
          | none => b.defaultContext
        else b.defaultContext
    | none => b.defaultContext
  let target : Target := ⟨targetInfo, context, none⟩
  ({ b with targets := mapSet b.targets targetInfo.targetId target },
   [Action.emitBrowser EventKind.targetCreated target,
    Action.emitContext context EventKind.targetCreated target])

/-- Browser._onTargetDestroyed: look the target up, delete it from the
registry, invoke its closed-callback, then emit the destroyed event on the
Browser and on the owning context, in that statement order. When the id is
unknown the lookup yields `undefined` and calling its closed-callback
raises a TypeError (the delete was a no-op, so the state is unchanged). -/
def onTargetDestroyed (b : Browser) (targetId : String) :
    Except JsError (Browser × List Action) :=
  match mapGet b.targets targetId with
  | none => .error JsError.typeError
  | some target =>
      .ok ({ b with targets := mapDelete b.targets targetId },
        [Action.removeTarget targetId,
         Action.closedCallback targetId,
         Action.emitBrowser EventKind.targetDestroyed target,
         Action.emitContext target.context EventKind.targetDestroyed target])

/-- Browser._onProvisionalTargetCommitted: when the old target has no
materialized page promise the notification is ignored; otherwise the same
promise is awaited, the Page swaps its session to the new target, and the
identical promise is assigned to the new target's pagePromise. An unknown
old or new target id dereferences `undefined` and raises a TypeError. -/
def onProvisionalTargetCommitted (b : Browser)
    (oldTargetId newTargetId : String) : Except JsError Browser :=
  match mapGet b.targets oldTargetId with
  | none => .error JsError.typeError
  | some oldTarget =>
      match oldTarget.pagePromise with
      | none => .ok b
      | some p =>
          match mapGet b.targets newTargetId with
          | none => .error JsError.typeError
          | some newTarget =>
              let nt : Target := { newTarget with pagePromise := some p }
              .ok { b with targets := mapSet b.targets newTargetId nt }

/-- Modelled from the spec: the event-name constants (src/webkit/events.ts
is not among the sources). The spec states the target-changed handler
emits the same "target changed" event on the Browser that waitForTarget
subscribes to, so the Browser-level emission below carries
EventKind.targetChanged. -/
def onTargetChanged (t : Target) : List Action :=
  [Action.emitBrowser EventKind.targetChanged t,
   Action.emitContext t.context EventKind.targetChanged t]

/-- An event delivered on the Browser emitter to waitForTarget's check
listener: the listener is registered on the created and changed channels
only. -/
inductive BEvent where
  | created (t : Target)
  | changed (t : Target)
  | destroyed (t : Target)
deriving DecidableEq

/-- The check closure of waitForTarget: reacts to created/changed events
whose target satisfies the predicate; destroyed events are not
subscribed. -/
def checkEvent (pred : Target → Bool) : BEvent → Option Target
  | .created t => if pred t then some t else none
  | .changed t => if pred t then some t else none
  | .destroyed _ => none

/-- First future event (in delivery order, with its timestamp) that the
check listener resolves on. -/
def firstMatch (pred : Target → Bool) :
    List (Nat × BEvent) → Option (Nat × Target)
  | [] => none
  | (tm, ev) :: rest =>
      match checkEvent pred ev with
      | some t => some (tm, t)
      | none => firstMatch pred rest

/-- Listener registration/removal on a Browser event channel. -/
inductive ListenerOp where
  | add (k : EventKind)
  | remove (k : EventKind)
deriving DecidableEq

/-- Outcome of waitForTarget: resolved against the existing snapshot,
resolved by a future event, rejected by the timer, or forever pending
(timeout 0 and no matching event ever arrives). -/
inductive WaitResult where
  | immediate (t : Target)
  | resolved (t : Target)
  | timedOut (op : String) (ms : Nat)
  | pending
deriving DecidableEq

/-- Modelled from the spec: helper.waitWithTimeout (src/helper.ts is not
among the sources) races the event-based resolution against a timer of
`timeout` ms and rejects with a TimeoutError naming the task and the
bound when the timer wins. -/
def waitWithTimeout (hit : Option (Nat × Target)) (taskName : String)
    (timeout : Nat) : WaitResult :=
  match hit with
  | some (tm, t) =>
      if tm < timeout then WaitResult.resolved t
      else WaitResult.timedOut taskName timeout
  | none => WaitResult.timedOut taskName timeout

/-- Browser.waitForTarget over the future browser-event trace `events`
(timestamps in ms since the call): timeout defaults to 30000; an existing
match returns immediately without registering listeners; otherwise the
check listener is registered on the created and changed channels; a falsy
timeout awaits the target promise alone; otherwise the promise races the
timer; the finally block removes both listeners whenever the await
settles. -/
def waitForTarget (b : Browser) (pred : Target → Bool)
    (timeoutOpt : Option Nat) (events : List (Nat × BEvent)) :
    WaitResult × List ListenerOp :=
  let timeout := timeoutOpt.getD 30000
  match b.targetList.find? pred with
  | some t => (WaitResult.immediate t, [])
  | none =>
      let adds := [ListenerOp.add EventKind.targetCreated,
                   ListenerOp.add EventKind.targetChanged]
      let removes := [ListenerOp.remove EventKind.targetCreated,
                      ListenerOp.remove EventKind.targetChanged]
      let hit := firstMatch pred events
      if timeout = 0 then
        match hit with
        | some r => (WaitResult.resolved r.2, adds ++ removes)
        | none => (WaitResult.pending, adds)
      else
        (waitWithTimeout hit ("target") timeout, adds ++ removes)

/-- Net listener count contributed by a trace of listener operations on
one event channel. -/
def netListeners (ops : List ListenerOp) (k : EventKind) : Int :=
  ops.foldl
    (fun n op =>
      match op with
      | ListenerOp.add k' => if k' = k then n + 1 else n
      | ListenerOp.remove k' => if k' = k then n - 1 else n)
    0

/-- Events visible on the Browser emitter in an action trace. -/
def browserEvents (acts : List Action) : List BEvent :=
  acts.filterMap fun a =>
    match a with
    | Action.emitBrowser EventKind.targetCreated t => some (BEvent.created t)
    | Action.emitBrowser EventKind.targetChanged t => some (BEvent.changed t)
    | Action.emitBrowser EventKind.targetDestroyed t => some (BEvent.destroyed t)
    | _ => none

/-- Modelled from the spec: helper.assert (src/helper.ts is not among the
sources) raises a precondition error carrying the message when the value
is falsy. BrowserContext.close asserts the id before delegating to the
Browser's context disposal. -/
def BrowserContext.close (ctx : BrowserContext) (b : Browser)
    (sendResult : Except JsError Unit) :
    Browser × List Command × Except JsError Unit :=
  if jsTruthy ctx.id then disposeContext b ctx.id sendResult
  else
    (b, [],
     .error (JsError.assertionError ("Non-incognito profiles cannot be closed!")))

/-- One action strictly precedes another in a trace. -/
def precedes (a a' : Action) (tr : List Action) : Prop :=
  ∃ i j, i < j ∧ tr.get? i = some a ∧ tr.get? j = some a'

/-- Claim C2 as stated: on every handled destroy notification the
closed-callback invocation precedes the registry removal. -/
def closedCallbackBeforeRemoval (b : Browser) (tid : String) : Prop :=
  ∀ b' tr, onTargetDestroyed b tid = Except.ok (b', tr) →
    precedes (Action.closedCallback tid) (Action.removeTarget tid) tr

/- Sample states used by witnesses and counterexamples. -/

def defaultCtx : BrowserContext := ⟨none⟩

def tInfoA : TargetInfo := ⟨"tA", "page", none⟩

def tInfoB : TargetInfo := ⟨"tB", "page", none⟩

/-- Target tA with a materialized page promise (identity 7). -/
def targetA : Target := ⟨tInfoA, defaultCtx, some 7⟩

/-- Target tB with no page promise yet. -/
def targetB : Target := ⟨tInfoB, defaultCtx, none⟩

/-- Target tA before any page request. -/
def plainTargetA : Target := ⟨tInfoA, defaultCtx, none⟩

def browser0 : Browser := ⟨defaultCtx, [], []⟩

def browser1 : Browser := ⟨defaultCtx, [], [("tA", plainTargetA)]⟩

def browserAB : Browser := ⟨defaultCtx, [], [("tA", targetA), ("tB", targetB)]⟩

def ctx1 : BrowserContext := ⟨some ("c1")⟩

def browserC : Browser := ⟨defaultCtx, [("c1", ctx1)], []⟩

/-- A created-notification payload naming the known context c1. -/
def tiKnown : TargetInfo := ⟨"tK", "page", some ("c1")⟩

/-- A created-notification payload naming an unknown context id. -/
def tiUnknown : TargetInfo := ⟨"tU", "page", some ("nope")⟩

/- Association-list lemmas for the Map embedding. -/

theorem mapGet_mapSet_self {α : Type} (m : List (String × α)) (k : String)
    (v : α) : mapGet (mapSet m k v) k = some v := by
  induction m with
  | nil => simp [mapGet, mapSet]
  | cons hd tl ih =>
      obtain ⟨k', v'⟩ := hd
      by_cases h : k' = k
      · simp [mapGet, mapSet, h]
      · simp [mapGet, mapSet, h, ih]

theorem mapGet_mapSet_ne {α : Type} (m : List (String × α)) (k k' : String)
    (v : α) (h : k ≠ k') : mapGet (mapSet m k v) k' = mapGet m k' := by
  induction m with
  | nil => simp [mapGet, mapSet, h]
  | cons hd tl ih =>
      obtain ⟨k0, v0⟩ := hd
      have h' : k' ≠ k := Ne.symm h
      by_cases h0 : k0 = k
      · subst h0; simp [mapGet, mapSet, h, h']
      · by_cases h1 : k0 = k' <;> simp [mapGet, mapSet, h0, h1, h', ih]

theorem mapGet_mapDelete_self {α : Type} (m : List (String × α))
    (k : String) : mapGet (mapDelete m k) k = none := by
  induction m with
  | nil => simp [mapGet, mapDelete]
  | cons hd tl ih =>
      obtain ⟨k', v'⟩ := hd
      by_cases h : k' = k <;> simp [mapGet, mapDelete, h, ih]

/-- Claim C1: processing a provisional-target-committed notification
transplants the old Target's materialized Page promise onto the new
Target, so that a subsequent page() request against the new target id
resolves to the identical Page; when the old Target never had a Page
materialization in flight the notification is ignored and the state is
unchanged; the memoization of Target.page means even two independent
page() callers observe the one transplanted Page. -/
theorem provisionalCommit_transplants_page (b : Browser)
    (oldId newId : String) (ot : Target)
    (hold : mapGet b.targets oldId = some ot) :
    (ot.pagePromise = none →
        onProvisionalTargetCommitted b oldId newId = Except.ok b)
    ∧ (∀ p nt, ot.pagePromise = some p → mapGet b.targets newId = some nt →
        ∃ b', onProvisionalTargetCommitted b oldId newId = Except.ok b'
          ∧ ∃ nt', mapGet b'.targets newId = some nt'
              ∧ nt'.pagePromise = some p
              ∧ ∀ fresh, (Target.page nt' fresh).2 = p)
    ∧ (∀ t : Target, ∀ f f' : Nat,
        ((Target.page t f).1.page f').2 = (Target.page t f).2) := by
  refine ⟨?_, ?_, ?_⟩
  · intro hp
    simp only [onProvisionalTargetCommitted, hold, hp]
  · intro p nt hp hnew
    simp only [onProvisionalTargetCommitted, hold, hp, hnew]
    refine ⟨_, rfl, { nt with pagePromise := some p },
      mapGet_mapSet_self _ _ _, rfl, ?_⟩
    intro fresh
    simp [Target.page]
  · intro t f f'
    cases hp : t.pagePromise <;> simp [Target.page, hp]

/-- Claim C10: after a provisional commit for old target A and new target
B (A having a materialized Page promise), A's promise is not cleared: both
registry entries hold the identical promise, so page() on either target id
resolves to the same Page. -/
theorem provisionalCommit_keeps_old_promise (b : Browser)
    (oldId newId : String) (ot nt : Target) (p : Nat)
    (hne : oldId ≠ newId)
    (hold : mapGet b.targets oldId = some ot)
    (hp : ot.pagePromise = some p)
    (hnew : mapGet b.targets newId = some nt) :
    ∃ b', onProvisionalTargetCommitted b oldId newId = Except.ok b'
      ∧ mapGet b'.targets oldId = some ot
      ∧ mapGet b'.targets newId = some { nt with pagePromise := some p }
      ∧ ∀ f f', (Target.page ot f).2 = p
          ∧ (Target.page { nt with pagePromise := some p } f').2 = p := by
  simp only [onProvisionalTargetCommitted, hold, hp, hnew]
  refine ⟨_, rfl, ?_, mapGet_mapSet_self _ _ _, ?_⟩
  · rw [mapGet_mapSet_ne _ _ _ _ (fun h => hne h.symm)]
    exact hold
  · intro f f'
    constructor <;> simp [Target.page, hp]

/-- Claim C2 (amended): for every targetDestroyed notification handled for
a registered target id, the handler removes the Target from the registry
first and then invokes its closed-callback. -/
theorem targetDestroyed_removes_then_closes (b : Browser) (tid : String)
    (t : Target) (h : mapGet b.targets tid = some t) :
    ∃ b' tr, onTargetDestroyed b tid = Except.ok (b', tr)
      ∧ precedes (Action.removeTarget tid) (Action.closedCallback tid) tr
      ∧ mapGet b'.targets tid = none := by
  unfold onTargetDestroyed
  rw [h]
  exact ⟨_, _, rfl, ⟨0, 1, Nat.zero_lt_one, rfl, rfl⟩,
    mapGet_mapDelete_self _ _⟩

/-- Claim C2, counterexample to the claim as stated: on a registered
target the handler's trace performs the registry removal before the
closed-callback, so the closed-callback never precedes the removal. -/
theorem targetDestroyed_claim_counterexample :
    mapGet browser1.targets ("tA") = some plainTargetA
    ∧ ¬ closedCallbackBeforeRemoval browser1 ("tA") := by
  refine ⟨rfl, ?_⟩
  intro hcl
  obtain ⟨i, j, hij, hi, hj⟩ := hcl _ _ rfl
  have hi1 : i = 1 := by
    rcases i with _ | _ | _ | _ | i
    · exact absurd hi (by decide)
    · rfl
    · exact absurd hi (by decide)
    · exact absurd hi (by decide)
    · simp [List.get?] at hi
  have hj0 : j = 0 := by
    rcases j with _ | _ | _ | _ | j
    · rfl
    · exact absurd hj (by decide)
    · exact absurd hj (by decide)
    · exact absurd hj (by decide)
    · simp [List.get?] at hj
  rw [hi1, hj0] at hij
  exact absurd hij (by decide)

/-- Claim C3: when the create-page command resolves with a targetId absent
from the target registry, createPageInContext (and newPage, which
delegates to it) fails with the internal-consistency TypeError and leaves
the state unchanged, rather than succeeding or failing some other way. -/
theorem createPageUnknownTarget_internal_error (b : Browser) (tid : String)
    (fresh : Nat) (h : mapGet b.targets tid = none) :
    createPageInContext b (Except.ok tid) fresh
        = (b, Except.error JsError.typeError)
    ∧ newPage b (Except.ok tid) fresh
        = (b, Except.error JsError.typeError) := by
  simp [newPage, createPageInContext, h]

/-- Claim C4: when no current target matches, waitForTarget subscribes
the predicate to both the target-created and target-changed channels, and
the first future event of either kind whose target satisfies the
predicate resolves the wait with that target; in particular a
target-changed notification routed through the Browser's target-changed
handler is delivered on the subscribed channel and resolves a pending
waitForTarget. -/
theorem waitForTarget_event_resolution (b : Browser) (pred : Target → Bool)
    (tmo : Option Nat) (events : List (Nat × BEvent)) (tm : Nat)
    (t : Target)
    (hno : b.targetList.find? pred = none)
    (hfirst : firstMatch pred events = some (tm, t))
    (hok : tmo.getD 30000 = 0 ∨ tm < tmo.getD 30000) :
    (waitForTarget b pred tmo events).2.take 2
        = [ListenerOp.add EventKind.targetCreated,
           ListenerOp.add EventKind.targetChanged]
    ∧ (waitForTarget b pred tmo events).1 = WaitResult.resolved t
    ∧ ∀ t', pred t' = true →
        firstMatch pred
            ((browserEvents (onTargetChanged t')).map (fun e => (tm, e)))
          = some (tm, t') := by
  refine ⟨?_, ?_, ?_⟩
  · simp only [waitForTarget, hno, hfirst]
    rcases hok with h0 | hlt
    · rw [h0]
      rfl
    · rw [if_neg (by omega)]
      rfl
  · simp only [waitForTarget, hno, hfirst]
    rcases hok with h0 | hlt
    · rw [h0]
      rfl
    · rw [if_neg (by omega)]
      simp [waitWithTimeout, hlt]
  · intro t' hp
    simp [browserEvents, onTargetChanged, firstMatch, checkEvent, hp]

/-- Claim C5: the waitForTarget timeout defaults to 30000 ms; a timeout
of 0 means the wait never times out; and for a positive bound t with no
matching target already present and no matching event arriving within t,
the call rejects with a TimeoutError naming the operation "target" and
the bound t. -/
theorem waitForTarget_timeout_contract (b : Browser) (pred : Target → Bool)
    (events : List (Nat × BEvent)) :
    waitForTarget b pred none events
        = waitForTarget b pred (some 30000) events
    ∧ (∀ op ms, (waitForTarget b pred (some 0) events).1
        ≠ WaitResult.timedOut op ms)
    ∧ ∀ tmo, 0 < tmo → b.targetList.find? pred = none →
        (∀ tm t, firstMatch pred events = some (tm, t) → tmo ≤ tm) →
        (waitForTarget b pred (some tmo) events).1
          = WaitResult.timedOut ("target") tmo := by
  refine ⟨rfl, ?_, ?_⟩
  · intro op ms
    cases hfind : b.targetList.find? pred with
    | some t => simp [waitForTarget, hfind]
    | none =>
        cases hm : firstMatch pred events with
        | some r => simp [waitForTarget, hfind, hm]
        | none => simp [waitForTarget, hfind, hm]
  · intro tmo htmo hfind hbound
    simp only [waitForTarget, hfind, Option.getD_some]
    rw [if_neg (by omega)]
    cases hm : firstMatch pred events with
    | some r =>
        have hle := hbound r.1 r.2 (by rw [hm])
        simp [waitWithTimeout, Nat.not_lt.mpr hle]
    | none => simp [waitWithTimeout]

/-- Claim C6: whenever waitForTarget reaches a terminal outcome
(immediate resolution, event resolution, or timeout rejection), every
listener it registered has been removed: the net listener count on each
event channel is zero. -/
theorem waitForTarget_removes_listeners (b : Browser)
    (pred : Target → Bool) (tmo : Option Nat)
    (events : List (Nat × BEvent))
    (hterm : (waitForTarget b pred tmo events).1 ≠ WaitResult.pending) :
    ∀ k, netListeners (waitForTarget b pred tmo events).2 k = 0 := by
  intro k
  cases hfind : b.targetList.find? pred with
  | some t => simp [waitForTarget, hfind, netListeners]
  | none =>
      by_cases h0 : tmo.getD 30000 = 0
      · cases hm : firstMatch pred events with
        | some r =>
            simp only [waitForTarget, hfind, hm, h0, if_pos]
            cases k <;> rfl
        | none =>
            exfalso
            apply hterm
            simp [waitForTarget, hfind, hm, h0]
      · simp only [waitForTarget, hfind, if_neg h0]
        cases k <;> rfl

/-- Claim C7: createIncognitoBrowserContext is atomic: on command failure
the error propagates unchanged and no registry entry is added; on success
the new BrowserContext keyed by the returned id is registered and
returned, with the target registry untouched. -/
theorem createIncognitoContext_atomic (b : Browser)
    (sendResult : Except JsError String) :
    (∀ e, sendResult = Except.error e →
        createIncognitoBrowserContext b sendResult = (b, Except.error e))
    ∧ ∀ cid, sendResult = Except.ok cid →
        createIncognitoBrowserContext b sendResult
            = ({ b with contexts := mapSet b.contexts cid ⟨some cid⟩ },
               Except.ok ⟨some cid⟩)
          ∧ mapGet (mapSet b.contexts cid (⟨some cid⟩ : BrowserContext)) cid
              = some ⟨some cid⟩
          ∧ ({ b with contexts := mapSet b.contexts cid ⟨some cid⟩ }
              : Browser).targets = b.targets := by
  constructor
  · intro e he
    subst he
    rfl
  · intro cid hc
    subst hc
    exact ⟨rfl, mapGet_mapSet_self _ _ _, rfl⟩

/-- Claim C8: on a targetCreated notification the new Target is
registered under its targetId and owned by the contexts-map entry for the
notification's browser-context id when that id is truthy and known; in
every other case (id absent, empty, or not found in the map) the Target
is assigned to the default context; an unrecognized id is never an
error. -/
theorem targetCreated_context_resolution (b : Browser) (ti : TargetInfo) :
    ∃ tg, mapGet (onTargetCreated b ti).1.targets ti.targetId = some tg
      ∧ tg.info = ti
      ∧ (∀ cid c, ti.browserContextId = some cid → cid ≠ "" →
            mapGet b.contexts cid = some c → tg.context = c)
      ∧ ((∀ cid, ti.browserContextId = some cid →
            cid = "" ∨ mapGet b.contexts cid = none) →
          tg.context = b.defaultContext) := by
  simp only [onTargetCreated]
  refine ⟨_, mapGet_mapSet_self _ _ _, rfl, ?_, ?_⟩
  · intro cid c hcid hne hget
    simp [hcid, hne, hget]
  · intro hother
    cases hb : ti.browserContextId with
    | none => simp [hb]
    | some cid =>
        rcases hother cid hb with he | hn
        · simp [hb, he]
        · by_cases he : cid = "" <;> simp [hb, hn, he]

/-- Claim C9: close() on the default context (absent or empty id) always
fails with the precondition error, issues no delete-context command and
mutates nothing; on a context with a truthy id it delegates to the
Browser's context disposal. -/
theorem contextClose_default_precondition (ctx : BrowserContext)
    (b : Browser) (sr : Except JsError Unit) :
    (jsTruthy ctx.id = false →
        BrowserContext.close ctx b sr
          = (b, [], Except.error (JsError.assertionError
              ("Non-incognito profiles cannot be closed!"))))
    ∧ (jsTruthy ctx.id = true →
        BrowserContext.close ctx b sr = disposeContext b ctx.id sr) := by
  constructor <;> intro h <;> simp [BrowserContext.close, h]

/-- Witness for C1: committing tA (page promise 7) onto tB transplants
promise 7 onto tB. -/
theorem provisionalCommit_transplants_page_witness :
    ∃ b', onProvisionalTargetCommitted browserAB ("tA") ("tB")
        = Except.ok b'
      ∧ ∃ nt', mapGet b'.targets ("tB") = some nt'
          ∧ nt'.pagePromise = some 7
          ∧ ∀ fresh, (Target.page nt' fresh).2 = 7 :=
  (provisionalCommit_transplants_page browserAB ("tA") ("tB") targetA
    rfl).2.1 7 targetB rfl rfl

/-- Witness for C10: after the same concrete commit both registry
entries hold promise 7. -/
theorem provisionalCommit_keeps_old_promise_witness :
    ∃ b', onProvisionalTargetCommitted browserAB ("tA") ("tB")
        = Except.ok b'
      ∧ mapGet b'.targets ("tA") = some targetA
      ∧ mapGet b'.targets ("tB") = some { targetB with pagePromise := some 7 }
      ∧ ∀ f f', (Target.page targetA f).2 = 7
          ∧ (Target.page { targetB with pagePromise := some 7 } f').2 = 7 :=
  provisionalCommit_keeps_old_promise browserAB ("tA") ("tB") targetA
    targetB 7 (by decide) rfl rfl rfl

/-- Witness for C2 (amended) at a concrete registered target. -/
theorem targetDestroyed_removes_then_closes_witness :
    ∃ b' tr, onTargetDestroyed browser1 ("tA") = Except.ok (b', tr)
      ∧ precedes (Action.removeTarget ("tA"))
          (Action.closedCallback ("tA")) tr
      ∧ mapGet b'.targets ("tA") = none :=
  targetDestroyed_removes_then_closes browser1 ("tA") plainTargetA rfl

/-- Witness for C3 at a concrete unknown target id. -/
theorem createPageUnknownTarget_internal_error_witness :
    mapGet browser0.targets ("tX") = none
    ∧ createPageInContext browser0 (Except.ok ("tX")) 0
        = (browser0, Except.error JsError.typeError)
    ∧ newPage browser0 (Except.ok ("tX")) 0
        = (browser0, Except.error JsError.typeError) :=
  ⟨rfl, createPageUnknownTarget_internal_error browser0 ("tX") 0 rfl⟩

/-- Witness for C4: a changed event for tB resolves a pending wait with
predicate matching tB. -/
theorem waitForTarget_event_resolution_witness :
    (waitForTarget browser0 (fun t => t.info.targetId == ("tB")) none
        [(5, BEvent.changed targetB)]).2.take 2
      = [ListenerOp.add EventKind.targetCreated,
         ListenerOp.add EventKind.targetChanged]
    ∧ (waitForTarget browser0 (fun t => t.info.targetId == ("tB")) none
        [(5, BEvent.changed targetB)]).1 = WaitResult.resolved targetB
    ∧ ∀ t', (fun t => t.info.targetId == ("tB")) t' = true →
        firstMatch (fun t => t.info.targetId == ("tB"))
            ((browserEvents (onTargetChanged t')).map (fun e => (5, e)))
          = some (5, t') :=
  waitForTarget_event_resolution browser0
    (fun t => t.info.targetId == ("tB")) none
    [(5, BEvent.changed targetB)] 5 targetB rfl rfl (Or.inr (by decide))

/-- Witness for C5: with no matching target, a 5 ms bound times out
naming "target" and 5, and a 0 bound never times out. -/
theorem waitForTarget_timeout_contract_witness :
    (waitForTarget browser0 (fun _ => false) (some 5) []).1
        = WaitResult.timedOut ("target") 5
    ∧ ∀ op ms, (waitForTarget browser0 (fun _ => false) (some 0) []).1
        ≠ WaitResult.timedOut op ms :=
  ⟨(waitForTarget_timeout_contract browser0 (fun _ => false) []).2.2 5
      (by decide) rfl (fun tm t h => Option.noConfusion h),
   (waitForTarget_timeout_contract browser0 (fun _ => false) []).2.1⟩

/-- Witness for C6 at a concrete timed-out wait. -/
theorem waitForTarget_removes_listeners_witness :
    (waitForTarget browser0 (fun _ => false) (some 5) []).1
        ≠ WaitResult.pending
    ∧ ∀ k, netListeners
        (waitForTarget browser0 (fun _ => false) (some 5) []).2 k = 0 :=
  ⟨by decide,
   waitForTarget_removes_listeners browser0 (fun _ => false) (some 5) []
     (by decide)⟩

/-- Witness for C7 at a concrete failing and a concrete succeeding
command. -/
theorem createIncognitoContext_atomic_witness :
    createIncognitoBrowserContext browser0
        (Except.error (JsError.protocolError ("create failed")))
      = (browser0, Except.error (JsError.protocolError ("create failed")))
    ∧ (createIncognitoBrowserContext browser0 (Except.ok ("c1"))
          = ({ browser0 with
                contexts := mapSet browser0.contexts ("c1") ⟨some ("c1")⟩ },
             Except.ok ⟨some ("c1")⟩)
        ∧ mapGet (mapSet browser0.contexts ("c1")
            (⟨some ("c1")⟩ : BrowserContext)) ("c1") = some ⟨some ("c1")⟩
        ∧ ({ browser0 with
              contexts := mapSet browser0.contexts ("c1") ⟨some ("c1")⟩ }
            : Browser).targets = browser0.targets) :=
  ⟨(createIncognitoContext_atomic browser0
      (Except.error (JsError.protocolError ("create failed")))).1
      (JsError.protocolError ("create failed")) rfl,
   (createIncognitoContext_atomic browser0
      (Except.ok ("c1"))).2 ("c1") rfl⟩

/-- Witness for C8: a known context id resolves to its contexts-map
entry; an unknown id folds into the default context. -/
theorem targetCreated_context_resolution_witness :
    (∃ tg, mapGet (onTargetCreated browserC tiKnown).1.targets ("tK")
        = some tg ∧ tg.context = ctx1)
    ∧ ∃ tg, mapGet (onTargetCreated browserC tiUnknown).1.targets ("tU")
        = some tg ∧ tg.context = defaultCtx := by
  refine ⟨?_, ?_⟩
  · obtain ⟨tg, hget, _, hknown, _⟩ :=
      targetCreated_context_resolution browserC tiKnown
    exact ⟨tg, hget, hknown ("c1") ctx1 rfl (by decide) rfl⟩
  · obtain ⟨tg, hget, _, _, hdef⟩ :=
      targetCreated_context_resolution browserC tiUnknown
    refine ⟨tg, hget, hdef ?_⟩
    intro cid hc
    injection hc with h
    subst h
    exact Or.inr rfl

/-- Witness for C9: closing the default context fails with the
precondition error and sends nothing; closing c1 delegates to context
disposal. -/
theorem contextClose_default_precondition_witness :
    BrowserContext.close defaultCtx browser0 (Except.ok ())
        = (browser0, [], Except.error (JsError.assertionError
            ("Non-incognito profiles cannot be closed!")))
    ∧ BrowserContext.close ctx1 browserC (Except.ok ())
        = disposeContext browserC ctx1.id (Except.ok ()) :=
  ⟨(contextClose_default_precondition defaultCtx browser0
      (Except.ok ())).1 rfl,
   (contextClose_default_precondition ctx1 browserC
      (Except.ok ())).2 rfl⟩

end Webkit
